import Mathlib

/-
  Verification of the llm-proxy-cf format-conversion core.

  The repository has two generations of code:
  * the "new endpoint structure" orchestrator (src/index.ts, here `LLMProxy`)
    together with the simplified transformers (src/transformers.ts, here the
    namespaces `AnthropicTransformer` and `OpenRouterTransformer`), and
  * the legacy single-file worker (here the namespace `LegacyWorker`), which
    contains the full model-name table, the streaming re-framer for the
    /v1/claude-to-openrouter endpoint and the byte-for-byte /v1/claude-proxy.

  JavaScript is untyped, so the shared substrate is a JSON value type with the
  JS member-access, truthiness and `||`-defaulting semantics made explicit.
  `JSON.parse` is modelled by an executable fuel-based parser and
  `JSON.stringify` by an executable serializer, because the orchestrator's
  same-provider "pass-through" is really parse-then-stringify.
-/

namespace LLMProxy

/-- JSON values as produced by JSON.parse. Numbers are modelled as exact
rationals (every double that appears in a JSON text is a rational). Object
fields keep their textual order; duplicate keys are resolved by
`lookupLast` (the last occurrence wins, as in JS). -/
inductive Json where
  | null
  | bool (b : Bool)
  | num (q : Rat)
  | str (s : String)
  | arr (elems : List Json)
  | obj (fields : List (String × Json))

/-- Property lookup on a JS object: with duplicate keys the last one wins. -/
def lookupLast (fields : List (String × Json)) (k : String) : Option Json :=
  fields.foldl (fun acc kv => if kv.1 = k then some kv.2 else acc) none

/-- JS truthiness of a JSON value: false, 0, "" and null are falsy,
arrays and objects are always truthy. -/
def truthy : Json → Bool
  | .null => false
  | .bool b => b
  | .num q => decide (q ≠ 0)
  | .str s => decide (s ≠ "")
  | .arr _ => true
  | .obj _ => true

/-- Truthiness where `none` stands for JS `undefined`. -/
def truthyOpt : Option Json → Bool
  | some v => truthy v
  | none => false

/-- JS `v.k` where the receiver may be `undefined` (`none`): accessing a
property of `undefined` or `null` throws a TypeError (`error`), any other
non-object receiver yields `undefined`. -/
def jsMemberO : Option Json → String → Except Unit (Option Json)
  | none, _ => .error ()
  | some .null, _ => .error ()
  | some (.obj fs), k => .ok (lookupLast fs k)
  | some _, _ => .ok none

/-- JS optional chaining `v?.k`: short-circuits `undefined`/`null` to
`undefined`, never throws. -/
def optChain : Option Json → String → Option Json
  | none, _ => none
  | some .null, _ => none
  | some (.obj fs), k => lookupLast fs k
  | some _, _ => none

/-- JS optional chaining `v?.[0]`: first array element, or the first
character of a string, otherwise `undefined`. -/
def optIndex0 : Option Json → Option Json
  | none => none
  | some .null => none
  | some (.arr xs) => xs.head?
  | some (.str s) =>
    match s.toList with
    | c :: _ => some (.str (String.singleton c))
    | [] => none
  | some _ => none

/-- JS `v || d` on a possibly-undefined JSON value. -/
def jsOrJson (v : Option Json) (d : Json) : Json :=
  match v with
  | some x => if truthy x then x else d
  | none => d

/-- JS `.length` of an array or a string (`undefined` otherwise). -/
def jsLength : Json → Option Rat
  | .arr xs => some (xs.length : Rat)
  | .str s => some (s.length : Rat)
  | _ => none

/-- JS `x || d` for optional numbers: absent and 0 both give the default. -/
def jsOrNat : Option Nat → Nat → Nat
  | some v, d => if v = 0 then d else v
  | none, d => d

/-- JS `x || d` for optional rationals: absent and 0 both give the default. -/
def jsOrRat : Option Rat → Rat → Rat
  | some v, d => if v = 0 then d else v
  | none, d => d

/-- JS `x || d` for optional booleans. -/
def jsOrBool : Option Bool → Bool → Bool
  | some v, d => v || d
  | none, d => d

/-- JS `x || d` for optional strings: absent and "" both give the default. -/
def jsOrStr : Option String → String → String
  | some v, d => if v = "" then d else v
  | none, d => d

/-- JS `s.startsWith(p)` (character-level; the prefixes used by the source
are ASCII, where JS code units and characters coincide). -/
def strStartsWith (s p : String) : Bool := p.toList.isPrefixOf s.toList

/-- JS `s.slice(n)` for the ASCII-prefixed lines the stream loop cuts. -/
def strDrop (s : String) (n : Nat) : String := String.mk (s.toList.drop n)

/- JSON.parse, as an executable parser over the character list of the input.
Whitespace, literals, strings with the standard escapes, numbers with
fraction and exponent, arrays and objects are supported; astral characters
written as surrogate pairs are the one unmodelled corner (each half decodes
separately). Fuel `length + 1` is always sufficient since every recursive
step consumes at least one character. -/

def isWsChar (c : Char) : Bool := c = ' ' || c = '\t' || c = '\n' || c = '\r'

def skipWs : List Char → List Char
  | [] => []
  | c :: cs => if isWsChar c then skipWs cs else c :: cs

def hexVal (c : Char) : Option Nat :=
  let n := c.toNat
  if 48 ≤ n ∧ n ≤ 57 then some (n - 48)
  else if 97 ≤ n ∧ n ≤ 102 then some (n - 87)
  else if 65 ≤ n ∧ n ≤ 70 then some (n - 55)
  else none

def parseStringAux : Nat → List Char → List Char → Option (String × List Char)
  | 0, _, _ => none
  | _ + 1, _, [] => none
  | fuel + 1, acc, c :: rest =>
    if c = '"' then some (String.mk acc.reverse, rest)
    else if c = '\\' then
      match rest with
      | [] => none
      | e :: rest2 =>
        if e = '"' then parseStringAux fuel ('"' :: acc) rest2
        else if e = '\\' then parseStringAux fuel ('\\' :: acc) rest2
        else if e = '/' then parseStringAux fuel ('/' :: acc) rest2
        else if e = 'b' then parseStringAux fuel (Char.ofNat 8 :: acc) rest2
        else if e = 'f' then parseStringAux fuel (Char.ofNat 12 :: acc) rest2
        else if e = 'n' then parseStringAux fuel ('\n' :: acc) rest2
        else if e = 'r' then parseStringAux fuel ('\r' :: acc) rest2
        else if e = 't' then parseStringAux fuel ('\t' :: acc) rest2
        else if e = 'u' then
          match rest2 with
          | h1 :: h2 :: h3 :: h4 :: rest3 =>
            match hexVal h1, hexVal h2, hexVal h3, hexVal h4 with
            | some a, some b, some c2, some d =>
              parseStringAux fuel (Char.ofNat (((a * 16 + b) * 16 + c2) * 16 + d) :: acc) rest3
            | _, _, _, _ => none
          | _ => none
        else none
    else if c.toNat < 32 then none
    else parseStringAux fuel (c :: acc) rest

def digitsToNat (ds : List Char) : Nat :=
  ds.foldl (fun n c => n * 10 + (c.toNat - 48)) 0

def parseNumber (cs : List Char) : Option (Rat × List Char) :=
  let signSplit : Bool × List Char :=
    match cs with
    | '-' :: r => (true, r)
    | _ => (false, cs)
  let neg := signSplit.1
  let cs1 := signSplit.2
  let intSplit := cs1.span Char.isDigit
  match intSplit.1 with
  | [] => none
  | d0 :: drest =>
    if d0 = '0' ∧ drest ≠ [] then none
    else
      let intPart : Nat := digitsToNat intSplit.1
      let fracStep : Option (Nat × Nat × List Char) :=
        match intSplit.2 with
        | '.' :: r2 =>
          let fs := r2.span Char.isDigit
          if fs.1 = [] then none else some (digitsToNat fs.1, fs.1.length, fs.2)
        | r => some (0, 0, r)
      match fracStep with
      | none => none
      | some (fracVal, fracLen, r3) =>
        let expStep : Option (Bool × Nat × List Char) :=
          match r3 with
          | e :: r4 =>
            if e = 'e' ∨ e = 'E' then
              let esignSplit : Bool × List Char :=
                match r4 with
                | '+' :: r6 => (false, r6)
                | '-' :: r6 => (true, r6)
                | _ => (false, r4)
              let es := esignSplit.2.span Char.isDigit
              if es.1 = [] then none else some (esignSplit.1, digitsToNat es.1, es.2)
            else some (false, 0, r3)
          | [] => some (false, 0, r3)
        match expStep with
        | none => none
        | some (eneg, expVal, r6) =>
          let base : Rat := (intPart : Rat) + (fracVal : Rat) / ((10 ^ fracLen : Nat) : Rat)
          let scaled : Rat :=
            if eneg then base / ((10 ^ expVal : Nat) : Rat)
            else base * ((10 ^ expVal : Nat) : Rat)
          some (if neg then -scaled else scaled, r6)

mutual

def parseValue : Nat → List Char → Option (Json × List Char)
  | 0, _ => none
  | fuel + 1, cs =>
    match skipWs cs with
    | [] => none
    | c :: rest =>
      if c = 'n' then
        match rest with
        | 'u' :: 'l' :: 'l' :: r => some (Json.null, r)
        | _ => none
      else if c = 't' then
        match rest with
        | 'r' :: 'u' :: 'e' :: r => some (Json.bool true, r)
        | _ => none
      else if c = 'f' then
        match rest with
        | 'a' :: 'l' :: 's' :: 'e' :: r => some (Json.bool false, r)
        | _ => none
      else if c = '"' then
        match parseStringAux (rest.length + 1) [] rest with
        | some (s, r) => some (Json.str s, r)
        | none => none
      else if c = '[' then
        match skipWs rest with
        | ']' :: r => some (Json.arr [], r)
        | cs2 => parseElems fuel cs2 []
      else if c = Char.ofNat 123 then
        match skipWs rest with
        | c2 :: r =>
          if c2 = Char.ofNat 125 then some (Json.obj [], r)
          else parseMembers fuel (c2 :: r) []
        | [] => none
      else if c = '-' ∨ c.isDigit then
        match parseNumber (c :: rest) with
        | some (q, r) => some (Json.num q, r)
        | none => none
      else none

def parseElems : Nat → List Char → List Json → Option (Json × List Char)
  | 0, _, _ => none
  | fuel + 1, cs, acc =>
    match parseValue fuel cs with
    | none => none
    | some (v, r) =>
      match skipWs r with
      | ',' :: r2 => parseElems fuel r2 (v :: acc)
      | ']' :: r2 => some (Json.arr (v :: acc).reverse, r2)
      | _ => none

def parseMembers : Nat → List Char → List (String × Json) → Option (Json × List Char)
  | 0, _, _ => none
  | fuel + 1, cs, acc =>
    match skipWs cs with
    | c :: rest =>
      if c = '"' then
        match parseStringAux (rest.length + 1) [] rest with
        | some (k, r) =>
          match skipWs r with
          | ':' :: r2 =>
            match parseValue fuel r2 with
            | none => none
            | some (v, r3) =>
              match skipWs r3 with
              | ',' :: r4 => parseMembers fuel r4 ((k, v) :: acc)
              | c2 :: r4 =>
                if c2 = Char.ofNat 125 then some (Json.obj ((k, v) :: acc).reverse, r4)
                else none
              | [] => none
          | _ => none
        | none => none
      else none
    | [] => none

end

/-- JSON.parse: succeeds exactly when the whole input is one JSON value
(possibly surrounded by whitespace); `none` models the thrown SyntaxError. -/
def parseJson (s : String) : Option Json :=
  let cs := s.toList
  match parseValue (cs.length + 1) cs with
  | some (j, r) => if skipWs r = [] then some j else none
  | none => none

/- JSON.stringify. -/

def hexDigitChar (n : Nat) : Char :=
  if n < 10 then Char.ofNat (48 + n) else Char.ofNat (87 + n)

def escapeChar (c : Char) : String :=
  if c = '"' then "\\\""
  else if c = '\\' then "\\\\"
  else if c = '\n' then "\\n"
  else if c = '\r' then "\\r"
  else if c = '\t' then "\\t"
  else if c.toNat = 8 then "\\b"
  else if c.toNat = 12 then "\\f"
  else if c.toNat < 32 then
    String.mk ['\\', 'u', '0', '0', hexDigitChar (c.toNat / 16), hexDigitChar (c.toNat % 16)]
  else String.singleton c

def stringifyString (s : String) : String :=
  "\"" ++ String.join (s.toList.map escapeChar) ++ "\""

def trimTrailingZeros (s : List Char) : List Char :=
  (s.reverse.dropWhile (· = '0')).reverse

/-- Decimal rendering of `m / 10 ^ k` with trailing zeros of the fraction
trimmed, matching how JSON.stringify prints such numbers. -/
def renderDec (m : Int) (k : Nat) : String :=
  let sign := if m < 0 then "-" else ""
  let a := m.natAbs
  let ip := a / 10 ^ k
  let fp := a % 10 ^ k
  if fp = 0 then sign ++ toString ip
  else
    let raw := toString fp
    let pad := String.mk (List.replicate (k - raw.length) '0')
    sign ++ toString ip ++ "." ++ String.mk (trimTrailingZeros (pad ++ raw).toList)

/-- Smallest power of ten divisible by `d`, searched up to 10 ^ 39. Every
number produced by `parseJson` has a denominator dividing a power of ten
within this range for realistic inputs; the fallback never occurs in this
development and is rendered as "null" (JSON.stringify of a non-finite
number). -/
def decPow (d : Nat) : Option Nat :=
  (List.range 40).find? (fun k => 10 ^ k % d = 0)

def stringifyNum (q : Rat) : String :=
  if q.den = 1 then toString q.num
  else
    match decPow q.den with
    | some k => renderDec (q.num * ((10 ^ k : Nat) : Int) / (q.den : Int)) k
    | none => "null"

mutual

def stringify : Json → String
  | .null => "null"
  | .bool true => "true"
  | .bool false => "false"
  | .num q => stringifyNum q
  | .str s => stringifyString s
  | .arr xs => "[" ++ stringifyElems xs ++ "]"
  | .obj fs => "\x7b" ++ stringifyFields fs ++ "\x7d"

def stringifyElems : List Json → String
  | [] => ""
  | [x] => stringify x
  | x :: y :: rest => stringify x ++ "," ++ stringifyElems (y :: rest)

def stringifyFields : List (String × Json) → String
  | [] => ""
  | [(k, v)] => stringifyString k ++ ":" ++ stringify v
  | (k, v) :: y :: rest => stringifyString k ++ ":" ++ stringify v ++ "," ++ stringifyFields (y :: rest)

end

/- ------------------------------------------------------------------
   Unified request model (the TransformRequest interface) and the message
   shapes flowing through the transformers. TypeScript is untyped; the
   types below capture exactly the fields the source reads and writes,
   with `Json` for positions where any value can sit.
   ------------------------------------------------------------------ -/

/-- The content of a tool_result block: the source distinguishes string
content (`typeof block.content === 'string'`) from anything else, which is
run through JSON.stringify. -/
inductive TRContent where
  | str (s : String)
  | json (j : Json)

def trContentToString : TRContent → String
  | .str s => s
  | .json j => stringify j

/-- A content block of a Claude-style message. -/
inductive ContentBlock where
  | text (t : String)
  | toolUse (id : String) (name : String) (input : Json)
  | toolResult (tool_use_id : String) (content : TRContent)

/-- Message content is polymorphic: a plain string or a block array
(`Array.isArray(message.content)` in the source). -/
inductive MsgContent where
  | str (s : String)
  | blocks (bs : List ContentBlock)

structure Message where
  role : String
  content : MsgContent
  tool_call_id : Option String

/-- Unified tool definition: name, description, input_schema. -/
structure ToolDef where
  name : String
  description : String
  input_schema : Json

structure OpenAIFunctionDef where
  name : String
  description : String
  parameters : Json

/-- OpenAI-format tool: `\x7btype: 'function', function: \x7b...\x7d\x7d`. -/
structure OpenAITool where
  type : String
  function : OpenAIFunctionDef

/-- The unified request (interface TransformRequest). The tool element type
is a parameter because the untyped source lets OpenAI-shaped tools flow
back through transformRequestOut unchanged. -/
structure TransformRequest (τ : Type) where
  model : String
  messages : List Message
  max_tokens : Option Nat
  temperature : Option Rat
  top_p : Option Rat
  stream : Option Bool
  tools : Option (List τ)

/-- The native OpenRouter (OpenAI-style) request built by
OpenRouterTransformer.transformRequestIn: max_tokens, temperature and
stream are always present after default substitution. -/
structure OpenRouterRequest (τ : Type) where
  model : String
  messages : List Message
  max_tokens : Nat
  temperature : Rat
  top_p : Option Rat
  stream : Bool
  tools : Option (List τ)

/-- The unified response (interface TransformResponse); every field may
hold an arbitrary JSON value, and `content` is absent when the provider
response lacked it. -/
structure TransformResponse where
  id : Option Json
  model : Option Json
  content : Option Json
  usage : Option Json

/-- A content block of a Claude-shaped response body. -/
inductive ClaudeBlock where
  | text (t : Json)
  | toolUse (id : Json) (name : Json) (input : Json)

/-- Claude-shaped response body as assembled by the converters (type and
role are the literals 'message'/'assistant'; stop_sequence is null; the
usage object is flattened into its two token fields). `model` is `none`
when the converter emits no model field. -/
structure ClaudeResponse where
  id : Json
  type : String
  role : String
  model : Option Json
  content : List ClaudeBlock
  stop_reason : String
  stop_sequence : Option Json
  input_tokens : Json
  output_tokens : Json

/-- The shared finish_reason → stop_reason table with its `|| 'end_turn'`
default, as written at src/unnamed/part_001 lines 84-89 and 123-128. -/
def mapStopReason (finishReason : String) : String :=
  if finishReason = "stop" then "end_turn"
  else if finishReason = "length" then "max_tokens"
  else if finishReason = "tool_calls" then "tool_use"
  else if finishReason = "function_call" then "tool_use"
  else "end_turn"

/- ------------------------------------------------------------------
   src/transformers.ts : AnthropicTransformer
   ------------------------------------------------------------------ -/

namespace AnthropicTransformer

/-- Anthropic native request to unified: projects the six unified fields
(everything else, top_p included, is dropped). -/
def transformRequestOut (request : TransformRequest ToolDef) : TransformRequest ToolDef :=
  ⟨request.model, request.messages, request.max_tokens, request.temperature,
   none, request.stream, request.tools⟩

/-- Unified to Anthropic: pass through. -/
def transformRequestIn (request : TransformRequest ToolDef) : TransformRequest ToolDef :=
  request

/-- Unified response to Anthropic-native (Claude) shape: single text block
from `response.content || ''`, hardcoded stop_reason 'end_turn', usage
renamed to input_tokens/output_tokens. `freshId` stands for the generated
`msg_${Math.random().toString(36).slice(2)}` token. -/
def transformResponseIn (freshId : String) (response : TransformResponse) : ClaudeResponse :=
  ⟨jsOrJson response.id (Json.str freshId),
   "message", "assistant", none,
   [ClaudeBlock.text (jsOrJson response.content (Json.str ""))],
   "end_turn", none,
   jsOrJson (optChain response.usage "prompt_tokens") (Json.num 0),
   jsOrJson (optChain response.usage "completion_tokens") (Json.num 0)⟩

end AnthropicTransformer

/- ------------------------------------------------------------------
   src/transformers.ts : OpenRouterTransformer
   ------------------------------------------------------------------ -/

namespace OpenRouterTransformer

/-- src/transformers.ts lines 138-148: the simplified model-name mapping.
Everything starting with "claude-" that is not a claude-opus-4 model maps
to "anthropic/claude-sonnet-4". -/
def mapModelName (model : String) : String :=
  if !strStartsWith model "claude-" then model
  else if strStartsWith model "claude-opus-4" then "anthropic/claude-opus-4"
  else "anthropic/claude-sonnet-4"

/-- The fold over a block array performed by transformMessagesToOpenAI:
accumulates (content, tool_call_id, isToolResult). Text blocks append to
content; a tool_result block overwrites content with its own (stringified
if not a string) and records the id; other block types are ignored. -/
def blockFold : List ContentBlock → String × String × Bool → String × String × Bool
  | [], st => st
  | b :: bs, (content, tcid, isTR) =>
    match b with
    | .text t => blockFold bs (content ++ t, tcid, isTR)
    | .toolResult id c => blockFold bs (trContentToString c, id, true)
    | .toolUse _ _ _ => blockFold bs (content, tcid, isTR)

/-- src/transformers.ts lines 150-183, the per-message body: string content
passes through; a block array collapses to a string, with a tool_result
block turning the message into `\x7brole: 'tool', tool_call_id, content\x7d`,
and an empty collapsed string falling back to the original content
(`content || message.content`). -/
def lowerMessage (m : Message) : Message :=
  match m.content with
  | .str _ => m
  | .blocks bs =>
    match blockFold bs ("", "", false) with
    | (content, tcid, isTR) =>
      if isTR then ⟨"tool", .str content, some tcid⟩
      else ⟨m.role, if content = "" then m.content else .str content, m.tool_call_id⟩

def transformMessagesToOpenAI (messages : List Message) : List Message :=
  messages.map lowerMessage

/-- src/transformers.ts lines 185-196: wrap each tool as an OpenAI
function tool; an absent list stays absent. -/
def transformToolsToOpenAI : Option (List ToolDef) → Option (List OpenAITool)
  | none => none
  | some tools => some (tools.map fun t => ⟨"function", ⟨t.name, t.description, t.input_schema⟩⟩)

/-- OpenRouter native request to unified (OpenAI format): projects the six
unified fields. -/
def transformRequestOut {τ : Type} (request : OpenRouterRequest τ) : TransformRequest τ :=
  ⟨request.model, request.messages, some request.max_tokens, some request.temperature,
   none, some request.stream, request.tools⟩

/-- Unified to OpenRouter, src/transformers.ts lines 108-119: model-name
mapping, message lowering, `|| 4096` / `|| 0.7` / `|| false` defaults,
tool wrapping. -/
def transformRequestIn (request : TransformRequest ToolDef) : OpenRouterRequest OpenAITool :=
  ⟨mapModelName request.model,
   transformMessagesToOpenAI request.messages,
   jsOrNat request.max_tokens 4096,
   jsOrRat request.temperature (0.7 : Rat),
   request.top_p,
   jsOrBool request.stream false,
   transformToolsToOpenAI request.tools⟩

/-- src/transformers.ts lines 121-131 on already-parsed data: id, model and
usage are plain property reads, content is
`data.choices?.[0]?.message?.content || ''`. The only way this can throw
is a null receiver (`data` itself null). -/
def transformResponseOutJson (data : Json) : Except Unit TransformResponse :=
  match jsMemberO (some data) "id" with
  | .error e => .error e
  | .ok id =>
    match jsMemberO (some data) "model" with
    | .error e => .error e
    | .ok model =>
      match jsMemberO (some data) "choices" with
      | .error e => .error e
      | .ok choices =>
        match jsMemberO (some data) "usage" with
        | .error e => .error e
        | .ok usage =>
          .ok ⟨id, model,
               some (jsOrJson (optChain (optChain (optIndex0 choices) "message") "content")
                 (Json.str "")),
               usage⟩

/-- src/transformers.ts line 123: `typeof response === 'string' ?
JSON.parse(response) : response`, then the structured lift. The `error`
on the string side is the JSON.parse SyntaxError. -/
def transformResponseOut : String ⊕ Json → Except Unit TransformResponse
  | .inl s =>
    match parseJson s with
    | some j => transformResponseOutJson j
    | none => .error ()
  | .inr j => transformResponseOutJson j

/-- src/transformers.ts lines 198-225: unified response to Claude shape.
One text block when `openaiResponse.content` is truthy, a default empty
text block otherwise; stop_reason is the literal 'end_turn'. -/
def convertToClaude (freshId : String) (openaiResponse : TransformResponse) : ClaudeResponse :=
  let contentBlocks : List ClaudeBlock :=
    match openaiResponse.content with
    | some c => if truthy c then [.text c] else []
    | none => []
  let contentBlocks := if contentBlocks.isEmpty then [.text (Json.str "")] else contentBlocks
  ⟨jsOrJson openaiResponse.id (Json.str freshId),
   "message", "assistant",
   openaiResponse.model,
   contentBlocks,
   "end_turn", none,
   jsOrJson (optChain openaiResponse.usage "prompt_tokens") (Json.num 0),
   jsOrJson (optChain openaiResponse.usage "completion_tokens") (Json.num 0)⟩

/-- transformResponseIn delegates to convertToClaude. -/
def transformResponseIn (freshId : String) (response : TransformResponse) : ClaudeResponse :=
  convertToClaude freshId response

end OpenRouterTransformer

/- ------------------------------------------------------------------
   src/index.ts (part_000): the conversion orchestrator's body handling.
   ------------------------------------------------------------------ -/

/-- Same-provider non-streaming path of handleConversionRequest: the body
is `await request.json()` and is forwarded as `JSON.stringify(requestBody)`
by makeProviderRequest; `none` models the JSON.parse failure. The
non-streaming response takes the same `response.json()` /
`JSON.stringify(responseData)` trip. -/
def sameProviderForwardBody (t : String) : Option String :=
  (parseJson t).map stringify

/-- Cross-provider non-streaming response pipeline for
/from-anthropic/to-openrouter: `targetTransformer.transformResponseOut`
then `sourceTransformer.transformResponseIn`. -/
def conversionResponsePipeline (freshId : String) (responseData : Json) : Except Unit ClaudeResponse :=
  match OpenRouterTransformer.transformResponseOutJson responseData with
  | .ok unified => .ok (AnthropicTransformer.transformResponseIn freshId unified)
  | .error e => .error e

/- ------------------------------------------------------------------
   src/unnamed/part_001: the legacy single-file worker.
   ------------------------------------------------------------------ -/

/-- JS `line.trim()` restricted to the ASCII whitespace that occurs in SSE
streams. -/
def strTrim (s : String) : String :=
  String.mk (((s.toList.dropWhile isWsChar).reverse.dropWhile isWsChar).reverse)

/-- `toolCall.function` of an OpenAI tool call. -/
structure OAIToolCallFunction where
  name : Option String
  arguments : Option String

structure OAIToolCall where
  type : String
  id : Option String
  function : OAIToolCallFunction

/-- `choice.message` of a non-streaming OpenAI response. -/
structure OAIMessage where
  content : Option Json
  tool_calls : Option (List OAIToolCall)

structure OAIChoice where
  message : Option OAIMessage
  finish_reason : Option String

structure OAIUsage where
  prompt_tokens : Option Rat
  completion_tokens : Option Rat

/-- A parsed OpenAI chat-completions response, with exactly the fields
convertOpenAIToClaude reads. `openaiResponse.choices || []` makes an
absent choices field and an empty array indistinguishable downstream,
so both are the empty list here. -/
structure OAIResponse where
  id : Option String
  choices : List OAIChoice
  usage : Option OAIUsage

namespace LegacyWorker

/-- part_001 lines 159-185: the full prefix table, checked from the most
specific version strings down, with the generic `anthropic/<model>`
fallback for unmatched claude- models. -/
def mapModelName (model : String) : String :=
  if !strStartsWith model "claude-" then model
  else if strStartsWith model "claude-opus-4" then "anthropic/claude-opus-4"
  else if strStartsWith model "claude-sonnet-4" then "anthropic/claude-sonnet-4"
  else if strStartsWith model "claude-3-7-sonnet" then "anthropic/claude-3.7-sonnet"
  else if strStartsWith model "claude-3-5-sonnet" then "anthropic/claude-3.5-sonnet"
  else if strStartsWith model "claude-3-5-haiku" then "anthropic/claude-3.5-haiku"
  else if strStartsWith model "claude-3-opus" then "anthropic/claude-3-opus"
  else if strStartsWith model "claude-3-sonnet" then "anthropic/claude-3-sonnet"
  else if strStartsWith model "claude-3-haiku" then "anthropic/claude-3-haiku"
  else "anthropic/" ++ model

/-- The openRouterRequest object built at part_001 lines 187-200 (messages
are forwarded untransformed; undefined fields are pruned, so an absent
top_p stays absent). -/
structure LegacyOpenRouterRequest where
  model : String
  messages : List Message
  max_tokens : Nat
  temperature : Rat
  top_p : Option Rat
  stream : Bool

def buildOpenRouterRequest (claudeRequest : TransformRequest ToolDef) : LegacyOpenRouterRequest :=
  ⟨mapModelName claudeRequest.model,
   claudeRequest.messages,
   jsOrNat claudeRequest.max_tokens 4096,
   jsOrRat claudeRequest.temperature (0.7 : Rat),
   claudeRequest.top_p,
   jsOrBool claudeRequest.stream false⟩

/-- part_001 lines 60-77: tool_calls of type 'function' become tool_use
blocks; arguments parse with a `\x7b\x7d` falsy default and fall back to a
raw_arguments wrapper on a parse error. `freshToolId` stands for the
generated `tool_${...}` token. -/
def toolCallBlocks (freshToolId : String) : List OAIToolCall → List ClaudeBlock
  | [] => []
  | tc :: rest =>
    if tc.type = "function" then
      let argStr := jsOrStr tc.function.arguments "\x7b\x7d"
      let input : Json :=
        match parseJson argStr with
        | some j => j
        | none => Json.obj [("raw_arguments", Json.str (jsOrStr tc.function.arguments ""))]
      ClaudeBlock.toolUse (Json.str (jsOrStr tc.id freshToolId))
        (Json.str (jsOrStr tc.function.name "")) input :: toolCallBlocks freshToolId rest
    else toolCallBlocks freshToolId rest

/-- part_001 lines 42-104: throws (error) when choices is empty or absent;
otherwise builds the Claude-shaped body whose stop_reason is the §4.1
table applied to `choice.finish_reason || 'stop'`. -/
def convertOpenAIToClaude (freshId freshToolId : String) (openaiResponse : OAIResponse)
    (requestModel : Json) : Except String ClaudeResponse :=
  match openaiResponse.choices with
  | [] => .error "No choices in OpenAI response"
  | choice :: _ =>
    let contentBlocks : List ClaudeBlock :=
      (match choice.message with
       | some msg =>
         (match msg.content with
          | some c => if truthy c then [ClaudeBlock.text c] else []
          | none => []) ++ toolCallBlocks freshToolId (msg.tool_calls.getD [])
       | none => [])
    let contentBlocks := if contentBlocks.isEmpty then [ClaudeBlock.text (Json.str "")] else contentBlocks
    .ok ⟨Json.str (jsOrStr openaiResponse.id freshId),
         "message", "assistant", some requestModel,
         contentBlocks,
         mapStopReason (jsOrStr choice.finish_reason "stop"), none,
         Json.num (((openaiResponse.usage.bind OAIUsage.prompt_tokens).getD 0 : Rat)),
         Json.num (((openaiResponse.usage.bind OAIUsage.completion_tokens).getD 0 : Rat))⟩

/-- handleClaudeProxy request path (part_001 lines 358-369): the request
text is forwarded verbatim. -/
def proxyForwardBody (claudeRequestText : String) : String := claudeRequestText

/-- handleClaudeProxy non-streaming response path (part_001 lines 426-434):
`await response.text()` returned verbatim. -/
def proxyResponseBody (responseText : String) : String := responseText

/- ------------------------------------------------------------------
   The streaming re-framer of handleClaudeToOpenRouter
   (part_001 lines 106-137 and 229-330).
   ------------------------------------------------------------------ -/

/-- The chunk-level result of convertOpenAIStreamToClaude: either a
content_block_delta payload or the `\x7btype: 'message_stop'\x7d` marker. -/
inductive ClaudeStreamChunk where
  | contentBlockDelta (text : Json)
  | messageStop

/-- part_001 lines 106-137 over the parsed JSON chunk, with the JS member
accesses explicit. `error` models a thrown TypeError (for example
`choice.delta` being undefined when `.content` is read), which the line
loop's try/catch turns into a skipped line. Note the source computes the
mapped stopReason here (lines 123-128) and then discards it, returning the
bare message_stop marker. Array-like plain objects carrying a `length`
property are not modelled. -/
def convertOpenAIStreamToClaude (chunk : Json) : Except Unit (Option ClaudeStreamChunk) :=
  match jsMemberO (some chunk) "choices" with
  | .error _ => .error ()
  | .ok choicesOpt =>
    let nonempty : Bool :=
      match choicesOpt with
      | some v => truthy v && (match jsLength v with
                               | some n => decide (0 < n)
                               | none => false)
      | none => false
    if nonempty then
      let choice : Json :=
        match choicesOpt with
        | some (.arr (x :: _)) => x
        | some (.str s) =>
          match s.toList with
          | c :: _ => .str (String.singleton c)
          | [] => .null
        | _ => .null
      match jsMemberO (some choice) "delta" with
      | .error _ => .error ()
      | .ok deltaOpt =>
        match jsMemberO deltaOpt "content" with
        | .error _ => .error ()
        | .ok contentOpt =>
          if truthyOpt contentOpt then
            .ok (some (.contentBlockDelta (contentOpt.getD .null)))
          else
            match jsMemberO (some choice) "finish_reason" with
            | .error _ => .error ()
            | .ok frOpt =>
              if truthyOpt frOpt then .ok (some .messageStop) else .ok none
    else .ok none

/-- The Claude-protocol events sent by sendEvent in the streaming path. -/
inductive StreamEvent where
  | message_start
  | content_block_start
  | content_block_delta (text : Json)
  | content_block_stop
  | message_delta (stop_reason : String)
  | message_stop

def isMessageStop : StreamEvent → Bool
  | .message_stop => true
  | _ => false

/-- The three terminal events the stream handler emits before closing, on
[DONE] (part_001 lines 282-292) and on a finish-reason chunk (lines
301-311); in both places stop_reason is the literal 'end_turn'. -/
def terminalEvents : List StreamEvent :=
  [.content_block_stop, .message_delta "end_turn", .message_stop]

/-- Outcome of one line of the source stream in the processStream loop. -/
inductive LineStep where
  | skip
  | emitDelta (text : Json)
  | terminal

/-- part_001 lines 279-317, the body of `for (const line of lines)`:
non-`data: ` lines are ignored, the [DONE] sentinel and a message_stop
conversion both end the stream, JSON parse errors and conversion throws
are caught and the line skipped. -/
def classifyLine (line : String) : LineStep :=
  if strStartsWith line "data: " then
    let data := strTrim (strDrop line 6)
    if data = "[DONE]" then .terminal
    else if data = "" then .skip
    else
      match parseJson data with
      | none => .skip
      | some parsed =>
        match convertOpenAIStreamToClaude parsed with
        | .error _ => .skip
        | .ok none => .skip
        | .ok (some (.contentBlockDelta t)) => .emitDelta t
        | .ok (some .messageStop) => .terminal
  else .skip

/-- Events emitted by the line loop: emission stops (controller closed,
function returned) at the first terminal line; a stream that ends without
one just stops emitting. -/
def processLines : List String → List StreamEvent
  | [] => []
  | l :: rest =>
    match classifyLine l with
    | .skip => processLines rest
    | .emitDelta t => .content_block_delta t :: processLines rest
    | .terminal => terminalEvents

/-- The full emitted event sequence: message_start and content_block_start
are sent unconditionally before the reader loop starts (part_001 lines
238-259), then the line loop runs. -/
def streamEvents (lines : List String) : List StreamEvent :=
  .message_start :: .content_block_start :: processLines lines

end LegacyWorker

/- ------------------------------------------------------------------
   Derived notions used by the statements below.
   ------------------------------------------------------------------ -/

/-- Whether a message carries plain string content (so the OpenAI lowering
passes it through unchanged). -/
def hasStringContent (m : Message) : Bool :=
  match m.content with
  | .str _ => true
  | .blocks _ => false

/-- The user-visible text of a content block (tool_use carries none). -/
def blockText : ContentBlock → String
  | .text t => t
  | .toolUse _ _ _ => ""
  | .toolResult _ c => trContentToString c

def msgText (m : Message) : String :=
  match m.content with
  | .str s => s
  | .blocks bs => String.join (bs.map blockText)

/-- Concatenated text content of a message list; any information-preserving
round trip must at least preserve this. -/
def messagesText (ms : List Message) : String :=
  String.join (ms.map msgText)

/-- Lower a unified request to the OpenRouter wire shape and lift it back. -/
def roundtripOpenRouter (r : TransformRequest ToolDef) : TransformRequest OpenAITool :=
  OpenRouterTransformer.transformRequestOut (OpenRouterTransformer.transformRequestIn r)

/-- Lower a unified request to the Anthropic wire shape and lift it back. -/
def roundtripAnthropic (r : TransformRequest ToolDef) : TransformRequest ToolDef :=
  AnthropicTransformer.transformRequestOut (AnthropicTransformer.transformRequestIn r)

/-- The information content of a unified tool definition. -/
def toolInfo (t : ToolDef) : String × String × Json :=
  (t.name, t.description, t.input_schema)

/-- The information content of an OpenAI function tool. -/
def openAIToolInfo (t : OpenAITool) : String × String × Json :=
  (t.function.name, t.function.description, t.function.parameters)

/-- A request whose single message mixes a text block with a tool_result
block. -/
def blockRoundtripRequest : TransformRequest ToolDef :=
  ⟨"claude-sonnet-4",
   [⟨"user", .blocks [.text "x", .toolResult "t1" (.str "42")], none⟩],
   some 100, none, none, none, none⟩

/-- A request whose messages all carry plain string content. -/
def stringRoundtripRequest : TransformRequest ToolDef :=
  ⟨"claude-sonnet-4", [⟨"user", .str "Hello", none⟩], some 1000, none, none, none,
   some [⟨"get_time", "returns the time", Json.obj []⟩]⟩

/-- A request carrying explicit zeros for temperature and max_tokens. -/
def zeroFieldsRequest : TransformRequest ToolDef :=
  ⟨"gpt-4", [⟨"user", .str "hi", none⟩], some 0, some 0, none, none, none⟩

/- ==================================================================
   Theorems.
   ================================================================== -/

open LegacyWorker (StreamEvent isMessageStop terminalEvents ClaudeStreamChunk LineStep)

/- C1: model-name mapping. -/

/-- C1 counterexample: the claim asserts "claude-3-5-sonnet-20241022" maps
to "anthropic/claude-3.5-sonnet" for the OpenRouter target, but
OpenRouterTransformer.mapModelName (src/transformers.ts 138-148) sends it
to "anthropic/claude-sonnet-4". -/
theorem C1_counterexample :
    OpenRouterTransformer.mapModelName "claude-3-5-sonnet-20241022" = "anthropic/claude-sonnet-4" ∧
    ("anthropic/claude-sonnet-4" : String) ≠ "anthropic/claude-3.5-sonnet" :=
  ⟨rfl, by decide⟩

/-- C1 (amended): the claimed prefix-priority mapping (specific table
entries first, generic anthropic/ fallback, non-claude pass-through) holds
for the legacy worker's mapModelName; the simplified
OpenRouterTransformer.mapModelName agrees only on the claude-opus-4 row and
on non-claude pass-through, and collapses every other claude- model to
"anthropic/claude-sonnet-4". -/
theorem C1_model_name_mapping :
    LegacyWorker.mapModelName "claude-3-5-sonnet-20241022" = "anthropic/claude-3.5-sonnet" ∧
    LegacyWorker.mapModelName "claude-opus-4-20250101" = "anthropic/claude-opus-4" ∧
    OpenRouterTransformer.mapModelName "claude-opus-4-20250101" = "anthropic/claude-opus-4" ∧
    (∀ m : String, strStartsWith m "claude-" = false →
      LegacyWorker.mapModelName m = m ∧ OpenRouterTransformer.mapModelName m = m) ∧
    (∀ m : String, strStartsWith m "claude-" = true →
      strStartsWith m "claude-opus-4" = false →
      strStartsWith m "claude-sonnet-4" = false →
      strStartsWith m "claude-3-7-sonnet" = false →
      strStartsWith m "claude-3-5-sonnet" = false →
      strStartsWith m "claude-3-5-haiku" = false →
      strStartsWith m "claude-3-opus" = false →
      strStartsWith m "claude-3-sonnet" = false →
      strStartsWith m "claude-3-haiku" = false →
      LegacyWorker.mapModelName m = "anthropic/" ++ m) ∧
    (∀ m : String, strStartsWith m "claude-" = true →
      strStartsWith m "claude-opus-4" = false →
      OpenRouterTransformer.mapModelName m = "anthropic/claude-sonnet-4") := by
  refine ⟨rfl, rfl, rfl, ?_, ?_, ?_⟩
  · intro m h
    exact ⟨by simp [LegacyWorker.mapModelName, h], by simp [OpenRouterTransformer.mapModelName, h]⟩
  · intro m h0 h1 h2 h3 h4 h5 h6 h7 h8
    simp [LegacyWorker.mapModelName, h0, h1, h2, h3, h4, h5, h6, h7, h8]
  · intro m h0 h1
    simp [OpenRouterTransformer.mapModelName, h0, h1]

/-- C1 witness: the fallback and pass-through rows of
C1_model_name_mapping at concrete models. -/
theorem C1_model_name_mapping_witness :
    LegacyWorker.mapModelName "claude-zeta" = "anthropic/claude-zeta" ∧
    LegacyWorker.mapModelName "gpt-4" = "gpt-4" :=
  ⟨C1_model_name_mapping.2.2.2.2.1 "claude-zeta"
      (by decide) (by decide) (by decide) (by decide) (by decide)
      (by decide) (by decide) (by decide) (by decide),
   (C1_model_name_mapping.2.2.2.1 "gpt-4" (by decide)).1⟩

/- C2: stop-reason mapping. -/

/-- C2 counterexample: in the simplified pipeline (OpenRouter
transformResponseOut, then the Anthropic-side transformResponseIn used by
the orchestrator), a provider response finishing with 'length' comes back
with stop_reason 'end_turn', not the claimed 'max_tokens' — finish_reason
is dropped by transformResponseOut and the converters hardcode 'end_turn'. -/
theorem C2_counterexample :
    Except.map ClaudeResponse.stop_reason
      (conversionResponsePipeline "m1"
        (Json.obj [("id", Json.str "r"),
          ("choices", Json.arr [Json.obj [("message", Json.obj [("content", Json.str "hi")]),
            ("finish_reason", Json.str "length")]])])) = Except.ok "end_turn" ∧
    mapStopReason "length" = "max_tokens" ∧
    (("end_turn" : String) ≠ "max_tokens") :=
  ⟨rfl, rfl, by decide⟩

/-- C2 (amended): the claimed total mapping (stop→end_turn,
length→max_tokens, tool_calls/function_call→tool_use, default end_turn,
range inside the closed vocabulary) is implemented by the legacy
convertOpenAIToClaude via mapStopReason; the simplified transformers
always answer 'end_turn' (still inside the vocabulary). -/
theorem C2_stop_reason_mapping :
    mapStopReason "stop" = "end_turn" ∧
    mapStopReason "length" = "max_tokens" ∧
    mapStopReason "tool_calls" = "tool_use" ∧
    mapStopReason "function_call" = "tool_use" ∧
    (∀ s : String, s ∉ (["stop", "length", "tool_calls", "function_call"] : List String) →
      mapStopReason s = "end_turn") ∧
    (∀ s : String, mapStopReason s ∈ (["end_turn", "max_tokens", "tool_use"] : List String)) ∧
    (∀ (fid ftid : String) (oid : Option String) (c : OAIChoice) (cs : List OAIChoice)
        (u : Option OAIUsage) (m : Json) (out : ClaudeResponse),
      LegacyWorker.convertOpenAIToClaude fid ftid ⟨oid, c :: cs, u⟩ m = Except.ok out →
      out.stop_reason = mapStopReason (jsOrStr c.finish_reason "stop") ∧
      out.stop_reason ∈ (["end_turn", "max_tokens", "tool_use"] : List String)) ∧
    (∀ (fid : String) (u : TransformResponse),
      (OpenRouterTransformer.convertToClaude fid u).stop_reason = "end_turn") ∧
    (∀ (fid : String) (u : TransformResponse),
      (AnthropicTransformer.transformResponseIn fid u).stop_reason = "end_turn") := by
  have hrange : ∀ s : String,
      mapStopReason s ∈ (["end_turn", "max_tokens", "tool_use"] : List String) := by
    intro s
    by_cases h1 : s = "stop" <;> by_cases h2 : s = "length" <;>
      by_cases h3 : s = "tool_calls" <;> by_cases h4 : s = "function_call" <;>
      simp [mapStopReason, h1, h2, h3, h4]
  refine ⟨rfl, rfl, rfl, rfl, ?_, hrange, ?_, fun fid u => rfl, fun fid u => rfl⟩
  · intro s hs
    simp only [List.mem_cons, List.not_mem_nil, or_false, not_or] at hs
    obtain ⟨h1, h2, h3, h4⟩ := hs
    simp [mapStopReason, h1, h2, h3, h4]
  · intro fid ftid oid c cs u m out h
    have h2 := Except.ok.inj h
    constructor
    · rw [← h2]
    · rw [← h2]
      exact hrange _

/-- C2 witness: the default row at the unrecognized reason
'content_filter', and the stop_reason actually produced by the legacy
converter on a 'length' response. -/
theorem C2_stop_reason_mapping_witness :
    mapStopReason "content_filter" = "end_turn" ∧
    Except.map ClaudeResponse.stop_reason
      (LegacyWorker.convertOpenAIToClaude "f" "g"
        ⟨some "r", [⟨some ⟨some (Json.str "hi"), none⟩, some "length"⟩], none⟩
        (Json.str "claude-sonnet-4")) = Except.ok "max_tokens" :=
  ⟨C2_stop_reason_mapping.2.2.2.2.1 "content_filter" (by decide), rfl⟩

/- C3, C6, C9: the streaming re-framer. -/

/-- Normal form of the line loop's output: a run of deltas, optionally
closed by the one terminal triple. -/
theorem processLines_shape (ls : List String) :
    (∃ ts : List Json, LegacyWorker.processLines ls = ts.map StreamEvent.content_block_delta) ∨
    (∃ ts : List Json, LegacyWorker.processLines ls =
      ts.map StreamEvent.content_block_delta ++ LegacyWorker.terminalEvents) := by
  induction ls with
  | nil => exact Or.inl ⟨[], rfl⟩
  | cons l rest ih =>
    cases h : LegacyWorker.classifyLine l with
    | skip =>
      simpa [LegacyWorker.processLines, h] using ih
    | emitDelta t =>
      rcases ih with ⟨ts, hts⟩ | ⟨ts, hts⟩
      · exact Or.inl ⟨t :: ts, by simp [LegacyWorker.processLines, h, hts]⟩
      · exact Or.inr ⟨t :: ts, by simp [LegacyWorker.processLines, h, hts]⟩
    | terminal =>
      exact Or.inr ⟨[], by simp [LegacyWorker.processLines, h]⟩

theorem countP_stop_map_delta (ts : List Json) :
    (ts.map StreamEvent.content_block_delta).countP isMessageStop = 0 := by
  induction ts with
  | nil => rfl
  | cons t ts ih => simp [List.countP_cons, isMessageStop, ih]

theorem countP_stop_comp_delta (ts : List Json) :
    ts.countP (isMessageStop ∘ StreamEvent.content_block_delta) = 0 := by
  induction ts with
  | nil => rfl
  | cons t ts ih => simp [List.countP_cons, isMessageStop, Function.comp, ih]

/-- If a list ends in its only occurrence of `x`, any decomposition at `x`
puts `x` last. -/
theorem append_last_unique {α : Type} (x : α) :
    ∀ (P a b : List α), x ∉ P → P ++ [x] = a ++ x :: b → b = [] := by
  intro P
  induction P with
  | nil =>
    intro a b _ h
    cases a with
    | nil => simpa using h
    | cons y a2 =>
      simp only [List.nil_append, List.cons_append, List.cons.injEq] at h
      exact absurd h.2.symm (by simp)
  | cons p P ih =>
    intro a b hx h
    cases a with
    | nil =>
      simp only [List.cons_append, List.nil_append, List.cons.injEq] at h
      exact absurd (by rw [← h.1]; exact List.mem_cons_self p P) hx
    | cons y a2 =>
      simp only [List.cons_append, List.cons.injEq] at h
      exact ih a2 b (fun hm => hx (List.mem_cons_of_mem p hm)) h.2

/-- C3: for every input line sequence, the emitted Claude event sequence
has no content_block_delta before the first content_block_start, at most
one message_stop, and message_stop (when present) is the final event. -/
theorem C3_stream_ordering (ls : List String) :
    (∀ (a : List StreamEvent) (t : Json) (b : List StreamEvent),
      LegacyWorker.streamEvents ls = a ++ StreamEvent.content_block_delta t :: b →
      StreamEvent.content_block_start ∈ a) ∧
    (LegacyWorker.streamEvents ls).countP isMessageStop ≤ 1 ∧
    (∀ (a b : List StreamEvent),
      LegacyWorker.streamEvents ls = a ++ StreamEvent.message_stop :: b → b = []) := by
  refine ⟨?_, ?_, ?_⟩
  · intro a t b h
    match a with
    | [] => simp [LegacyWorker.streamEvents] at h
    | [x] => simp [LegacyWorker.streamEvents, List.cons.injEq] at h
    | x :: y :: a2 =>
      simp only [LegacyWorker.streamEvents, List.cons_append, List.cons.injEq] at h
      exact (List.mem_cons).2 (Or.inr ((List.mem_cons).2 (Or.inl h.2.1)))
  · rcases processLines_shape ls with ⟨ts, hts⟩ | ⟨ts, hts⟩ <;>
      simp [LegacyWorker.streamEvents, hts, List.countP_cons, List.countP_append,
        isMessageStop, countP_stop_map_delta, countP_stop_comp_delta,
        LegacyWorker.terminalEvents]
  · intro a b h
    rcases processLines_shape ls with ⟨ts, hts⟩ | ⟨ts, hts⟩
    · have hmem : StreamEvent.message_stop ∈ LegacyWorker.streamEvents ls := by
        rw [h]
        exact List.mem_append_right a (List.mem_cons_self _ _)
      rw [LegacyWorker.streamEvents, hts] at hmem
      simp [List.mem_map] at hmem
    · have hP : LegacyWorker.streamEvents ls =
          (StreamEvent.message_start :: StreamEvent.content_block_start ::
            ts.map StreamEvent.content_block_delta ++
            [StreamEvent.content_block_stop, StreamEvent.message_delta "end_turn"]) ++
          [StreamEvent.message_stop] := by
        simp [LegacyWorker.streamEvents, hts, LegacyWorker.terminalEvents]
      refine append_last_unique StreamEvent.message_stop _ a b ?_ (hP.symm.trans h)
      simp [List.mem_append, List.mem_map]

/-- C3 witness: the no-early-delta part, instantiated on a one-chunk
stream whose delta lands at index 2, after the synthesized
content_block_start. -/
theorem C3_stream_ordering_witness :
    StreamEvent.content_block_start ∈
      [StreamEvent.message_start, StreamEvent.content_block_start] :=
  (C3_stream_ordering
      ["data: \x7b\"choices\":[\x7b\"delta\":\x7b\"content\":\"hi\"\x7d\x7d]\x7d"]).1
    [StreamEvent.message_start, StreamEvent.content_block_start] (Json.str "hi") [] rfl

/-- C6: the streaming path does NOT carry the mapped stop_reason. On a
chunk finishing with 'length' (in state BlockOpen) the emitted
message_delta carries 'end_turn', although the §4.1 table — which the
source computes at part_001 lines 123-128 and then discards — maps
'length' to 'max_tokens'. -/
theorem C6_stream_stop_reason_eval :
    LegacyWorker.streamEvents
        ["data: \x7b\"choices\":[\x7b\"delta\":\x7b\x7d,\"finish_reason\":\"length\"\x7d]\x7d"] =
      [StreamEvent.message_start, StreamEvent.content_block_start,
       StreamEvent.content_block_stop, StreamEvent.message_delta "end_turn",
       StreamEvent.message_stop] ∧
    mapStopReason "length" = "max_tokens" ∧
    (("end_turn" : String) ≠ "max_tokens") :=
  ⟨rfl, rfl, by decide⟩

/-- Inserting a line the loop skips changes nothing. -/
theorem processLines_insert_skip (l : String) (hc : LegacyWorker.classifyLine l = .skip)
    (pres posts : List String) :
    LegacyWorker.processLines (pres ++ l :: posts) = LegacyWorker.processLines (pres ++ posts) := by
  induction pres with
  | nil => simp [LegacyWorker.processLines, hc]
  | cons p rest ih =>
    cases hp : LegacyWorker.classifyLine p <;>
      simp [LegacyWorker.processLines, hp, ih]

/-- C9: a data line whose payload fails to parse is skipped — the emitted
event sequence is exactly the one for the stream without that line, at any
position, so a malformed line never aborts the stream. -/
theorem C9_malformed_line_skipped (pres posts : List String) (l : String)
    (h1 : strStartsWith l "data: " = true)
    (h2 : strTrim (strDrop l 6) ≠ "[DONE]")
    (h3 : strTrim (strDrop l 6) ≠ "")
    (h4 : parseJson (strTrim (strDrop l 6)) = none) :
    LegacyWorker.streamEvents (pres ++ l :: posts) = LegacyWorker.streamEvents (pres ++ posts) := by
  have hc : LegacyWorker.classifyLine l = .skip := by
    simp [LegacyWorker.classifyLine, h1, h2, h3, h4]
  simp [LegacyWorker.streamEvents, processLines_insert_skip l hc]

/-- C9 witness: dropping a malformed line between two well-formed chunks
leaves the emitted events unchanged. -/
theorem C9_malformed_line_skipped_witness :
    LegacyWorker.streamEvents
        ["data: \x7b\"choices\":[\x7b\"delta\":\x7b\"content\":\"a\"\x7d\x7d]\x7d",
         "data: \x7bbad",
         "data: [DONE]"] =
      LegacyWorker.streamEvents
        ["data: \x7b\"choices\":[\x7b\"delta\":\x7b\"content\":\"a\"\x7d\x7d]\x7d",
         "data: [DONE]"] :=
  C9_malformed_line_skipped
    ["data: \x7b\"choices\":[\x7b\"delta\":\x7b\"content\":\"a\"\x7d\x7d]\x7d"]
    ["data: [DONE]"] "data: \x7bbad" (by decide) (by decide) (by decide) rfl

/- C4: transformResponseOut and the no-content failure. -/

/-- C4 counterexample: on a response with an empty choices array the
OpenRouter transformResponseOut does not fail at all — it returns a
unified response whose content is the empty string. -/
theorem C4_counterexample :
    OpenRouterTransformer.transformResponseOut
        (Sum.inr (Json.obj [("id", Json.str "r1"), ("choices", Json.arr [])])) =
      Except.ok ⟨some (Json.str "r1"), none, some (Json.str ""), none⟩ := rfl

/-- C4 (amended): transformResponseOut accepts an already-parsed object or
a raw JSON text; on any object input it succeeds, with empty/absent
choices yielding content '' rather than an error. The no-choices failure
('No choices in OpenAI response') exists only in the legacy
convertOpenAIToClaude converter. -/
theorem C4_response_out_total :
    (∀ fs : List (String × Json),
      OpenRouterTransformer.transformResponseOut (Sum.inr (Json.obj fs)) =
        Except.ok ⟨lookupLast fs "id", lookupLast fs "model",
          some (jsOrJson (optChain (optChain (optIndex0 (lookupLast fs "choices")) "message")
            "content") (Json.str "")),
          lookupLast fs "usage"⟩) ∧
    (∀ (s : String) (j : Json), parseJson s = some j →
      OpenRouterTransformer.transformResponseOut (Sum.inl s) =
        OpenRouterTransformer.transformResponseOutJson j) ∧
    (∀ fs : List (String × Json), lookupLast fs "choices" = some (Json.arr []) →
      Except.map TransformResponse.content
        (OpenRouterTransformer.transformResponseOut (Sum.inr (Json.obj fs))) =
        Except.ok (some (Json.str ""))) ∧
    (∀ (fid ftid : String) (oid : Option String) (u : Option OAIUsage) (m : Json),
      LegacyWorker.convertOpenAIToClaude fid ftid ⟨oid, [], u⟩ m =
        Except.error "No choices in OpenAI response") := by
  refine ⟨fun fs => rfl, ?_, ?_, fun fid ftid oid u m => rfl⟩
  · intro s j h
    simp [OpenRouterTransformer.transformResponseOut, h]
  · intro fs h
    simp [OpenRouterTransformer.transformResponseOut,
      OpenRouterTransformer.transformResponseOutJson, jsMemberO, h, optIndex0, optChain,
      jsOrJson, Except.map]

/-- C4 witness: the raw-text branch on "\x7b\x7d" and the empty-choices
case on a concrete object. -/
theorem C4_response_out_total_witness :
    OpenRouterTransformer.transformResponseOut (Sum.inl "\x7b\x7d") =
      OpenRouterTransformer.transformResponseOutJson (Json.obj []) ∧
    Except.map TransformResponse.content
      (OpenRouterTransformer.transformResponseOut
        (Sum.inr (Json.obj [("choices", Json.arr [])]))) = Except.ok (some (Json.str "")) :=
  ⟨C4_response_out_total.2.1 "\x7b\x7d" (Json.obj []) rfl,
   C4_response_out_total.2.2.1 [("choices", Json.arr [])] rfl⟩

/- C5: same-provider pass-through. -/

/-- C5 counterexample: the orchestrator's same-provider path re-encodes the
body (`JSON.stringify(await request.json())`), so a body with interior
whitespace is not forwarded byte-for-byte. -/
theorem C5_counterexample :
    sameProviderForwardBody "\x7b \"model\": \"m\" \x7d" = some "\x7b\"model\":\"m\"\x7d" ∧
    (("\x7b\"model\":\"m\"\x7d" : String) ≠ "\x7b \"model\": \"m\" \x7d") :=
  ⟨rfl, by decide⟩

/-- C5 (amended): only the legacy claude-proxy endpoint forwards the
request text and returns the response text byte-for-byte; the
orchestrator's same-provider path forwards JSON.stringify of the parsed
body — a value-preserving re-serialization, not a byte-identical one. -/
theorem C5_pass_through :
    (∀ t : String, LegacyWorker.proxyForwardBody t = t) ∧
    (∀ t : String, LegacyWorker.proxyResponseBody t = t) ∧
    (∀ (t : String) (j : Json), parseJson t = some j →
      sameProviderForwardBody t = some (stringify j)) := by
  refine ⟨fun t => rfl, fun t => rfl, fun t j h => ?_⟩
  simp [sameProviderForwardBody, h]

/-- C5 witness: the re-serialization route at a concrete body. -/
theorem C5_pass_through_witness :
    sameProviderForwardBody "\"a\"" = some (stringify (Json.str "a")) :=
  C5_pass_through.2.2 "\"a\"" (Json.str "a") rfl

/- C7: request round trip. -/

theorem lowerMessage_of_hasStringContent (m : Message) (h : hasStringContent m = true) :
    OpenRouterTransformer.lowerMessage m = m := by
  cases m with
  | mk role content tcid =>
    cases content with
    | str s => rfl
    | blocks bs => simp [hasStringContent] at h

theorem map_lowerMessage_id (ms : List Message) (h : ∀ m ∈ ms, hasStringContent m = true) :
    ms.map OpenRouterTransformer.lowerMessage = ms := by
  induction ms with
  | nil => rfl
  | cons m rest ih =>
    rw [List.map_cons, lowerMessage_of_hasStringContent m (h m (List.mem_cons_self m rest)),
      ih (fun x hx => h x (List.mem_cons_of_mem m hx))]

/-- C7 counterexample: the OpenRouter round trip is not
message-preserving. For a message mixing a text block with a tool_result
block, the lowering keeps only the tool_result content ("42") and drops
the text ("x"), so no equivalence recovering the messages can hold. -/
theorem C7_counterexample :
    messagesText (roundtripOpenRouter blockRoundtripRequest).messages = "42" ∧
    messagesText blockRoundtripRequest.messages = "x42" ∧
    (roundtripOpenRouter blockRoundtripRequest).messages ≠ blockRoundtripRequest.messages := by
  refine ⟨rfl, rfl, fun h => ?_⟩
  have h2 : ("42" : String) = "x42" := congrArg messagesText h
  exact absurd h2 (by decide)

/-- C7 (amended): the Anthropic round trip preserves model, messages,
max_tokens, temperature and tools exactly; the OpenRouter round trip,
restricted to requests whose messages all carry plain string content,
preserves messages exactly and model/max_tokens/temperature modulo the
model mapping and the falsy default substitution, and preserves the
name/description/schema content of tools under the function wrapper. -/
theorem C7_request_roundtrip (r : TransformRequest ToolDef) :
    (roundtripAnthropic r).model = r.model ∧
    (roundtripAnthropic r).messages = r.messages ∧
    (roundtripAnthropic r).max_tokens = r.max_tokens ∧
    (roundtripAnthropic r).temperature = r.temperature ∧
    (roundtripAnthropic r).tools = r.tools ∧
    ((∀ m ∈ r.messages, hasStringContent m = true) →
      (roundtripOpenRouter r).model = OpenRouterTransformer.mapModelName r.model ∧
      (roundtripOpenRouter r).messages = r.messages ∧
      (roundtripOpenRouter r).max_tokens = some (jsOrNat r.max_tokens 4096) ∧
      (roundtripOpenRouter r).temperature = some (jsOrRat r.temperature (0.7 : Rat)) ∧
      (roundtripOpenRouter r).tools = OpenRouterTransformer.transformToolsToOpenAI r.tools ∧
      Option.map (List.map openAIToolInfo) (roundtripOpenRouter r).tools =
        Option.map (List.map toolInfo) r.tools) := by
  refine ⟨rfl, rfl, rfl, rfl, rfl, fun h => ⟨rfl, ?_, rfl, rfl, rfl, ?_⟩⟩
  · exact map_lowerMessage_id r.messages h
  · cases r with
    | mk model messages max_tokens temperature top_p stream tools =>
      cases tools with
      | none => rfl
      | some ts =>
        simp [roundtripOpenRouter, OpenRouterTransformer.transformRequestIn,
          OpenRouterTransformer.transformRequestOut,
          OpenRouterTransformer.transformToolsToOpenAI, List.map_map, Function.comp,
          openAIToolInfo, toolInfo]

/-- C7 witness: the string-content hypothesis discharged on a concrete
request; messages survive the OpenRouter round trip and the explicit
max_tokens is kept. -/
theorem C7_request_roundtrip_witness :
    (roundtripOpenRouter stringRoundtripRequest).messages = stringRoundtripRequest.messages ∧
    (roundtripOpenRouter stringRoundtripRequest).max_tokens = some 1000 :=
  ⟨((C7_request_roundtrip stringRoundtripRequest).2.2.2.2.2 (by decide)).2.1,
   ((C7_request_roundtrip stringRoundtripRequest).2.2.2.2.2 (by decide)).2.2.1.trans rfl⟩

/- C8: tool-result lowering. -/

/-- C8: any message whose content is the single block list
[tool_result(tool_use_id t1, content "42")] lowers, for the OpenAI target,
to role 'tool' with tool_call_id 't1' and string content "42", whatever
its original role and tool_call_id were. -/
theorem C8_tool_result_lowering (role : String) (tcid : Option String) :
    OpenRouterTransformer.transformMessagesToOpenAI
        [⟨role, .blocks [.toolResult "t1" (.str "42")], tcid⟩] =
      [⟨"tool", .str "42", some "t1"⟩] := rfl

/- C10: falsy defaulting of explicit zeros. -/

/-- C10: in both OpenRouter lowerings (simplified transformer and legacy
request builder), explicit zeros are replaced by the provider defaults 0.7
and 4096 because `||` treats 0 as absent. -/
theorem C10_falsy_zero_defaults (r : TransformRequest ToolDef) :
    (r.temperature = some 0 →
      (OpenRouterTransformer.transformRequestIn r).temperature = (0.7 : Rat)) ∧
    (r.max_tokens = some 0 →
      (OpenRouterTransformer.transformRequestIn r).max_tokens = 4096) ∧
    (r.temperature = some 0 →
      (LegacyWorker.buildOpenRouterRequest r).temperature = (0.7 : Rat)) ∧
    (r.max_tokens = some 0 →
      (LegacyWorker.buildOpenRouterRequest r).max_tokens = 4096) := by
  refine ⟨fun h => ?_, fun h => ?_, fun h => ?_, fun h => ?_⟩ <;>
    simp [OpenRouterTransformer.transformRequestIn, LegacyWorker.buildOpenRouterRequest,
      jsOrRat, jsOrNat, h]

/-- C10 witness: a request with temperature 0 and max_tokens 0 hits both
defaults. -/
theorem C10_falsy_zero_defaults_witness :
    (OpenRouterTransformer.transformRequestIn zeroFieldsRequest).temperature = (0.7 : Rat) ∧
    (OpenRouterTransformer.transformRequestIn zeroFieldsRequest).max_tokens = 4096 :=
  ⟨(C10_falsy_zero_defaults zeroFieldsRequest).1 rfl,
   (C10_falsy_zero_defaults zeroFieldsRequest).2.1 rfl⟩

end LLMProxy
